import Mathlib

/-!
Shallow embedding of the SSE (Server-Sent Events) client library.

The repository carries two revisions of the event-source implementation:

* namespace `V1` models `src/eventsource.go` together with the `MessageEvent`
  record visible in `src/unnamed/part_000` (struct-based `EventSource`,
  decoder-owned retry interval, `Last-Event-ID` request header);
* namespace `V2` models `src/unnamed/part_001` (interface-based
  `eventSource`, an `Event` record with a `retry` field, a `retry` duration
  stored on the manager, no `Last-Event-ID` request header).

The pieces that are textually identical in the two files — the ready states,
the error values, `mustReconnect`, `setReadyState`, `acquireClosingRight`,
`Close`, the response handling of `doHttpConnect` and `connectOnce` — are
defined once at top level.

Durations are modelled in nanoseconds, exactly as Go's `time.Duration`.
The HTTP environment is modelled as a list of per-attempt outcomes (a
transport error, or a response with a status code and a Content-Type), and
the loops of `reconnect` consume that list; a run that exhausts the list
while the loop guard still holds is reported as `none` (the loop is still
running).  The state carries ghost observables — the number of issued
attempts, the list of performed sleeps, and counters for the channel close
and the response-body close — which record the trace of externally visible
actions without changing the control flow of the embedded code.
-/

/-- Go: `AllowedContentType = "text/event-stream"` (both files). -/
def AllowedContentType : String := "text/event-stream"

/-- One nanosecond, the unit of Go's `time.Duration`. -/
def nanosecond : Nat := 1

/-- Go: `time.Millisecond` in nanoseconds. -/
def millisecond : Nat := 1000000

/-- Go: `time.Second` in nanoseconds. -/
def second : Nat := 1000000000

/-- Go (part_001): `defaultRetry = 1 * time.Second`. -/
def defaultRetry : Nat := 1 * second

/-- Go (part_001): `type ReadyState byte` with values
`Connecting`, `Open`, `Closing`, `Closed`. -/
inductive ReadyState where
  | Connecting
  | Open
  | Closing
  | Closed
deriving DecidableEq, Repr, Inhabited

/-- The error values distinguished by the client: `ErrContentType`,
`io.ErrUnexpectedEOF`, and every other transport or decode error
(`io.EOF` included), carried with a message so that the family is
infinite, as Go's `error` values are. -/
inductive SseError where
  | errContentType
  | errUnexpectedEOF
  | other (msg : String)
deriving DecidableEq, Repr

/-- The part of an `http.Response` the client inspects: the status code and
the `Content-Type` header. -/
structure HttpResponse where
  status : Nat
  contentType : String
deriving DecidableEq, Repr

/-- The outcome of one `http.DefaultClient.Do`: a transport error (`Do`
returns a nil response), or a response. -/
inductive ConnectOutcome where
  | netErr (msg : String)
  | resp (r : HttpResponse)
deriving DecidableEq, Repr

/-- The fields of the event-source struct that the embedded operations
touch, together with ghost trace observables (`attempts`, `sleeps`,
`outClosed`, `bodyClosed`) recording externally visible actions. -/
structure ESState where
  url : String
  lastEventID : String
  resp : Option HttpResponse
  /-- part_001: `retry time.Duration`, the reconnection waiting time (ns). -/
  retry : Nat
  readyState : ReadyState
  /-- ghost: number of HTTP requests issued so far. -/
  attempts : Nat
  /-- ghost: durations (ns) of the `time.Sleep` calls performed so far. -/
  sleeps : List Nat
  /-- ghost: number of times `close(es.out)` ran. -/
  outClosed : Nat
  /-- ghost: number of times `es.resp.Body.Close()` ran. -/
  bodyClosed : Nat
deriving DecidableEq, Repr, Inhabited

/-- Go (both files): `mustReconnect(err)` — a nil error is `none`; the
stored response is the second input (`es.resp`).
```
switch err {
case ErrContentType:      return false
case io.ErrUnexpectedEOF: return true
}
if es.resp != nil && es.resp.StatusCode == http.StatusNoContent {
  return false
}
return true
``` -/
def mustReconnect (err : Option SseError) (resp : Option HttpResponse) : Bool :=
  if err = some SseError.errContentType then false
  else if err = some SseError.errUnexpectedEOF then true
  else match resp with
    | some r => if r.status = 204 then false else true
    | none => true

/-- Go (both files): `setReadyState` — once `Closed`, the ready state never
changes again. -/
def setReadyState (st : ESState) (s : ReadyState) : ESState :=
  if st.readyState = ReadyState.Closed then st
  else { st with readyState := s }

/-- Go (both files): `acquireClosingRight` — compare-and-claim to `Closing`,
failing when already `Closing` or `Closed`. -/
def acquireClosingRight (st : ESState) : Bool × ESState :=
  if st.readyState = ReadyState.Closed ∨ st.readyState = ReadyState.Closing then
    (false, st)
  else
    (true, { st with readyState := ReadyState.Closing })

/-- Go (both files): the body of `Close()`, additionally reporting whether
this call acquired the closing right.  The teardown releases the transport
body (when a response is held), closes the events channel, and moves the
ready state to `Closed`; the ghost counters record the two releases. -/
def CloseRun (st : ESState) : ESState × Bool :=
  let (ok, st1) := acquireClosingRight st
  if ok then
    let st2 :=
      if st1.resp.isSome then { st1 with bodyClosed := st1.bodyClosed + 1 }
      else st1
    let st3 := { st2 with outClosed := st2.outClosed + 1 }
    (setReadyState st3 ReadyState.Closed, true)
  else
    (st1, false)

/-- Go (both files): `Close()`. -/
def Close (st : ESState) : ESState := (CloseRun st).1

/-- Go (both files): the response handling of `doHttpConnect` after the
request is issued: a transport error is returned with a nil response; a
response whose `Content-Type` is not exactly `text/event-stream` is
returned together with `ErrContentType`; otherwise the response is
returned without error. -/
def doHttpConnect (o : ConnectOutcome) : Option HttpResponse × Option SseError :=
  match o with
  | ConnectOutcome.netErr msg => (none, some (SseError.other msg))
  | ConnectOutcome.resp r =>
      if r.contentType = AllowedContentType then (some r, none)
      else (some r, some SseError.errContentType)

/-- Go (both files): `connectOnce` — stores the response (also on failure),
and on success marks the source `Open`, binds a fresh decoder to the body
and starts the consume task.  The ghost `attempts` counter records the
issued request. -/
def connectOnce (st : ESState) (o : ConnectOutcome) : ESState × Option SseError :=
  let (r, err) := doHttpConnect o
  let st1 := { st with resp := r, attempts := st.attempts + 1 }
  match err with
  | some e => (st1, some e)
  | none => (setReadyState st1 ReadyState.Open, none)

namespace V2

/-- Modelled from the spec: the `Event` record produced by the stream
decoder of the part_001 revision is not under `src/`; its shape is
reconstructed from §3 of the design (Message with optional id and name and
a data payload; RetryDirective with a delay in milliseconds) and from its
uses in `consume` (`ev.retry >= 0` marks a retry directive, `ev.ID` is the
event id).  `retry` is negative on ordinary messages and holds the delay in
milliseconds on retry directives. -/
structure Event where
  ID : String
  Name : String
  Data : String
  retry : Int
deriving DecidableEq, Repr

/-- Go (part_001): `setLastEventID`, a write under the exclusive lock. -/
def setLastEventID (st : ESState) (id : String) : ESState :=
  { st with lastEventID := id }

/-- Go (part_001): `LastEventID()`, a read under the shared lock. -/
def LastEventID (st : ESState) : String := st.lastEventID

/-- Go (part_001): the headers set on the GET request built by
`doHttpConnect` — only `Accept` and `Cache-Control`; no `Last-Event-ID`
header is set in this revision. -/
def requestHeaders (_lastEventID : String) : List (String × String) :=
  [("Accept", AllowedContentType), ("Cache-Control", "no-store")]

/-- Go (part_001): one iteration of the `consume` loop for a successfully
decoded event: a retry directive (`ev.retry >= 0`) overwrites the stored
retry interval with `time.Duration(ev.retry) * time.Millisecond` and is not
forwarded; otherwise a non-empty id updates `lastEventID` and the event is
sent on `es.out` (returned as `some ev`). -/
def consumeStep (st : ESState) (ev : Event) : ESState × Option Event :=
  if 0 ≤ ev.retry then
    ({ st with retry := ev.retry.toNat * millisecond }, none)
  else
    let st1 := if ev.ID ≠ "" then setLastEventID st ev.ID else st
    (st1, some ev)

/-- The `consume` loop run over a list of successfully decoded events,
returning the final state and the events sent on `es.out`, in order. -/
def consumeRun (st : ESState) : List Event → ESState × List Event
  | [] => (st, [])
  | ev :: evs =>
      match consumeStep st ev with
      | (st1, none) => consumeRun st1 evs
      | (st1, some e) =>
          ((consumeRun st1 evs).1, e :: (consumeRun st1 evs).2)

/-- Go (part_001): the `for es.mustReconnect(err) { time.Sleep(es.retry);
err = es.connectOnce() }` loop of `reconnect`, followed by the trailing
`if err != nil { es.Close() }`.  `err` starts as the incoming value (a fresh
nil when entered from `reconnect`); each iteration consumes one outcome from
the environment.  `none` means the environment was exhausted while the loop
guard still held (the loop is still running). -/
def reconnectLoop : ESState → Option SseError → List ConnectOutcome →
    Option (ESState × Option SseError)
  | st, err, [] =>
      if mustReconnect err st.resp then none
      else
        let stF := if err.isSome then Close st else st
        some (stF, err)
  | st, err, o :: rest =>
      if mustReconnect err st.resp then
        reconnectLoop
          (connectOnce { st with sleeps := st.sleeps ++ [st.retry] } o).1
          (connectOnce { st with sleeps := st.sleeps ++ [st.retry] } o).2 rest
      else
        let stF := if err.isSome then Close st else st
        some (stF, err)

/-- Go (part_001): `reconnect()` — marks `Connecting` and runs the loop
with the named return value `err` freshly initialised to nil. -/
def reconnect (st : ESState) (env : List ConnectOutcome) :
    Option (ESState × Option SseError) :=
  reconnectLoop (setReadyState st ReadyState.Connecting) none env

/-- Go (part_001): `connect()` — marks `Connecting`, performs one attempt,
and on failure hands over to `reconnect` (discarding the first error). -/
def connect (st : ESState) (env : List ConnectOutcome) :
    Option (ESState × Option SseError) :=
  let st0 := setReadyState st ReadyState.Connecting
  match env with
  | [] => none
  | o :: rest =>
      let (st1, err) := connectOnce st0 o
      match err with
      | none => some (st1, none)
      | some _ => reconnect st1 rest

/-- Go (part_001): the state literal built by `NewEventSource` before
`connect` runs: empty last event id, no response, the default retry
interval, and the zero ready state (`Connecting`, since `ReadyState` is a
byte and `Connecting = 0`). -/
def NewEventSource (url : String) : ESState :=
  { url := url, lastEventID := "", resp := none, retry := defaultRetry,
    readyState := ReadyState.Connecting,
    attempts := 0, sleeps := [], outClosed := 0, bodyClosed := 0 }

end V2

namespace V1

/-- Go (eventsource.go / part_000): the `MessageEvent` record with a last
event id, a name and a data payload, as constructed in part_000
(`MessageEvent{LastEventID: ..., Name: ..., Data: ...}`). -/
structure MessageEvent where
  LastEventID : String
  Name : String
  Data : String
deriving DecidableEq, Repr

/-- Go (eventsource.go): the headers set on the GET request built by
`doHTTPConnect` — `Accept`, `Cache-Control`, and `Last-Event-ID` exactly
when the stored `lastEventID` is non-empty. -/
def requestHeaders (lastEventID : String) : List (String × String) :=
  [("Accept", AllowedContentType), ("Cache-Control", "no-store")] ++
    (if lastEventID ≠ "" then [("Last-Event-ID", lastEventID)] else [])

/-- Go (eventsource.go): one iteration of the `consume` loop for a
successfully decoded event: `es.lastEventID = ev.LastEventID` runs
unconditionally, and the event is always sent on `es.out`. -/
def consumeStep (st : ESState) (ev : MessageEvent) : ESState × Option MessageEvent :=
  ({ st with lastEventID := ev.LastEventID }, some ev)

/-- Go (eventsource.go): `connect()` — marks `Connecting`, performs exactly
one attempt, and on failure calls `Close` and returns the error; no
reconnection loop is entered from construction in this revision. -/
def connect (st : ESState) (o : ConnectOutcome) : ESState × Option SseError :=
  let st0 := setReadyState st ReadyState.Connecting
  let (st1, err) := connectOnce st0 o
  match err with
  | none => (st1, none)
  | some e => (Close st1, some e)

/-- Go (eventsource.go): the state literal built by `NewEventSource` before
`connect` runs (this revision stores no retry interval on the struct — the
decoder owns it; the field is kept at the shared default and unused). -/
def NewEventSource (url : String) : ESState :=
  { url := url, lastEventID := "", resp := none, retry := defaultRetry,
    readyState := ReadyState.Connecting,
    attempts := 0, sleeps := [], outClosed := 0, bodyClosed := 0 }

end V1

/-! ### Reconnect classification (claim C1) -/

/-- C1 counterexample: the claim states that an HTTP status 204 is
classified terminal (no retry) regardless of the accompanying error; but
when the error is `io.ErrUnexpectedEOF` (stream truncated mid-block) the
switch in `mustReconnect` returns `true` before the 204 check is reached,
so the classification is retryable at this input. -/
theorem mustReconnect_204_truncation_retries :
    mustReconnect (some SseError.errUnexpectedEOF)
      (some { status := 204, contentType := "" }) = true := by
  decide

/-- C1 (amended): the reconnect classification is a pure function of the
error and the stored response: a content-type mismatch is terminal; a
truncated stream (unexpected EOF) is retryable, and this case takes
precedence over the 204 rule; an HTTP status 204 is terminal for every
error other than unexpected EOF (a nil error included); every other
transport or decode error with a non-204 response, or with no response at
all, is retryable. -/
theorem mustReconnect_classification :
    (∀ resp, mustReconnect (some SseError.errContentType) resp = false) ∧
    (∀ resp, mustReconnect (some SseError.errUnexpectedEOF) resp = true) ∧
    (∀ err r, r.status = 204 → err ≠ some SseError.errUnexpectedEOF →
      mustReconnect err (some r) = false) ∧
    (∀ msg r, r.status ≠ 204 →
      mustReconnect (some (SseError.other msg)) (some r) = true) ∧
    (∀ msg, mustReconnect (some (SseError.other msg)) none = true) := by
  refine ⟨?_, ?_, ?_, ?_, ?_⟩
  · intro resp; simp [mustReconnect]
  · intro resp; simp [mustReconnect]
  · intro err r h h2
    cases err with
    | none => simp [mustReconnect, h]
    | some e => cases e <;> simp_all [mustReconnect]
  · intro msg r h; simp [mustReconnect, h]
  · intro msg; simp [mustReconnect]

/-- C1 witness: the amended classification evaluated at concrete inputs. -/
theorem mustReconnect_classification_witness :
    mustReconnect (some SseError.errContentType) none = false ∧
    mustReconnect (some SseError.errUnexpectedEOF) none = true ∧
    mustReconnect none (some { status := 204, contentType := "" }) = false ∧
    mustReconnect (some (SseError.other "eof"))
      (some { status := 200, contentType := AllowedContentType }) = true ∧
    mustReconnect (some (SseError.other "eof")) none = true :=
  ⟨mustReconnect_classification.1 none,
   mustReconnect_classification.2.1 none,
   mustReconnect_classification.2.2.1 none ⟨204, ""⟩ rfl (by decide),
   mustReconnect_classification.2.2.2.1 "eof" ⟨200, AllowedContentType⟩ (by decide),
   mustReconnect_classification.2.2.2.2 "eof"⟩

/-! ### First-attempt content-type failure (claim C2) -/

/-- C2 counterexample: with the server answering `200, text/plain` on both
the first and the second request, the part_001 `connect` makes a second
attempt (`attempts = 2`) after sleeping the 1 s backoff
(`sleeps = [defaultRetry]`) before returning the content-type error —
the claim states that no reconnection attempt is made and the error is
returned immediately. -/
theorem connect_contentType_retries_once :
    V2.connect (V2.NewEventSource "http://example")
      [ConnectOutcome.resp ⟨200, "text/plain"⟩,
       ConnectOutcome.resp ⟨200, "text/plain"⟩] =
    some ({ url := "http://example", lastEventID := "",
            resp := some ⟨200, "text/plain"⟩, retry := defaultRetry,
            readyState := ReadyState.Closed, attempts := 2,
            sleeps := [defaultRetry], outClosed := 1, bodyClosed := 1 },
          some SseError.errContentType) := by
  decide

/-- C2 (amended): if the first response has a Content-Type other than
exactly `text/event-stream`, construction does return the content-type
error with final ready-state `Closed`; in the eventsource.go revision this
happens immediately, with a single attempt, no sleep and no reconnection;
in the part_001 revision the reconnect loop is entered regardless (its
guard re-classifies a fresh nil error against the stored non-204 response
as retryable), so one further attempt is made after sleeping the backoff,
and the error returned is the content-type error of that second attempt. -/
theorem connect_contentType_terminal (url ct : String)
    (hct : ct ≠ AllowedContentType) :
    V1.connect (V1.NewEventSource url) (ConnectOutcome.resp ⟨200, ct⟩) =
      ({ url := url, lastEventID := "", resp := some ⟨200, ct⟩,
         retry := defaultRetry, readyState := ReadyState.Closed,
         attempts := 1, sleeps := [], outClosed := 1, bodyClosed := 1 },
       some SseError.errContentType) ∧
    V2.connect (V2.NewEventSource url)
      [ConnectOutcome.resp ⟨200, ct⟩, ConnectOutcome.resp ⟨200, ct⟩] =
    some ({ url := url, lastEventID := "", resp := some ⟨200, ct⟩,
            retry := defaultRetry, readyState := ReadyState.Closed,
            attempts := 2, sleeps := [defaultRetry],
            outClosed := 1, bodyClosed := 1 },
          some SseError.errContentType) := by
  constructor
  · simp [V1.connect, V1.NewEventSource, connectOnce, doHttpConnect,
      setReadyState, Close, CloseRun, acquireClosingRight, hct]
  · simp [V2.connect, V2.NewEventSource, V2.reconnect, V2.reconnectLoop,
      connectOnce, doHttpConnect, mustReconnect, setReadyState,
      Close, CloseRun, acquireClosingRight, hct]

/-- C2 witness: the amended behavior at the concrete Content-Type
`text/plain`. -/
theorem connect_contentType_terminal_witness :
    V1.connect (V1.NewEventSource "u") (ConnectOutcome.resp ⟨200, "text/plain"⟩) =
      ({ url := "u", lastEventID := "", resp := some ⟨200, "text/plain"⟩,
         retry := defaultRetry, readyState := ReadyState.Closed,
         attempts := 1, sleeps := [], outClosed := 1, bodyClosed := 1 },
       some SseError.errContentType) ∧
    V2.connect (V2.NewEventSource "u")
      [ConnectOutcome.resp ⟨200, "text/plain"⟩,
       ConnectOutcome.resp ⟨200, "text/plain"⟩] =
    some ({ url := "u", lastEventID := "", resp := some ⟨200, "text/plain"⟩,
            retry := defaultRetry, readyState := ReadyState.Closed,
            attempts := 2, sleeps := [defaultRetry],
            outClosed := 1, bodyClosed := 1 },
          some SseError.errContentType) :=
  connect_contentType_terminal "u" "text/plain" (by decide)

/-! ### Reconnection loop on retryable first failure (claim C3) -/

/-- C3 (code bug, evaluated at the failing input): the doc comment of
`reconnect` says the loop runs "until the operation succeeds or the
conditions to retry no longer hold true", and the claim says the loop
retries until an attempt succeeds or a terminal classification occurs.
But after a successful `connectOnce` the loop guard evaluates
`mustReconnect(nil)` against the fresh 200 response, which is `true`, so
the loop keeps reconnecting: with a transport failure followed by a fully
successful attempt the call has still not returned (`none` — the loop is
still consuming attempts), and with a third, content-type-failing response
the call returns that terminal error with `attempts = 3`, having slept
twice — the successful second attempt did not stop the loop. -/
theorem reconnect_runs_past_success :
    V2.connect (V2.NewEventSource "u")
      [ConnectOutcome.netErr "connection refused",
       ConnectOutcome.resp ⟨200, AllowedContentType⟩] = none ∧
    V2.connect (V2.NewEventSource "u")
      [ConnectOutcome.netErr "connection refused",
       ConnectOutcome.resp ⟨200, AllowedContentType⟩,
       ConnectOutcome.resp ⟨200, "text/plain"⟩] =
    some ({ url := "u", lastEventID := "", resp := some ⟨200, "text/plain"⟩,
            retry := defaultRetry, readyState := ReadyState.Closed,
            attempts := 3, sleeps := [defaultRetry, defaultRetry],
            outClosed := 1, bodyClosed := 1 },
          some SseError.errContentType) := by
  constructor
  · decide
  · decide

/-! ### Retry directives (claim C4) -/

/-- C4: a decoded event carrying a retry directive with delay `N`
(`ev.retry = N ≥ 0`, in milliseconds) is never sent on the consumer's
events channel, and the manager's backoff interval is overwritten — not
combined with — to exactly `N` milliseconds: the new state is the old one
with `retry := N * millisecond`, whatever the previous interval was, and
nothing is emitted; moreover no event appearing in the output of a whole
consume run carries a retry directive. -/
theorem retry_directive_policy :
    (∀ (st : ESState) (ev : V2.Event), 0 ≤ ev.retry →
      V2.consumeStep st ev =
        ({ st with retry := ev.retry.toNat * millisecond }, none)) ∧
    (∀ (evs : List V2.Event) (st : ESState) (ev : V2.Event),
      ev ∈ (V2.consumeRun st evs).2 → ev.retry < 0) := by
  constructor
  · intro st ev h
    simp [V2.consumeStep, h]
  · intro evs
    induction evs with
    | nil =>
        intro st ev h
        simp [V2.consumeRun] at h
    | cons e es ih =>
        intro st ev h
        by_cases he : 0 ≤ e.retry
        · simp only [V2.consumeRun, V2.consumeStep, if_pos he] at h
          exact ih _ ev h
        · simp only [V2.consumeRun, V2.consumeStep, if_neg he] at h
          rcases List.mem_cons.mp h with h1 | h1
          · subst h1; omega
          · exact ih _ ev h1

/-- C4 witness: a `retry: 3000` directive is absorbed (interval becomes
exactly 3000 ms) and only the ordinary message of a run is emitted. -/
theorem retry_directive_policy_witness :
    V2.consumeStep (V2.NewEventSource "u")
        { ID := "", Name := "", Data := "", retry := 3000 } =
      ({ V2.NewEventSource "u" with retry := 3000 * millisecond }, none) ∧
    ({ ID := "a", Name := "n", Data := "d", retry := -1 } : V2.Event).retry < 0 :=
  ⟨retry_directive_policy.1 (V2.NewEventSource "u")
      { ID := "", Name := "", Data := "", retry := 3000 } (by decide),
   retry_directive_policy.2
      [{ ID := "", Name := "", Data := "", retry := 3000 },
       { ID := "a", Name := "n", Data := "d", retry := -1 }]
      (V2.NewEventSource "u")
      { ID := "a", Name := "n", Data := "d", retry := -1 } (by decide)⟩

/-! ### The Last-Event-ID request header (claim C5) -/

/-- C5 (code bug, evaluated at the failing input): the part_001 revision
tracks `lastEventID` under its own lock and exposes it through
`LastEventID()`, and its constructor documents HTML5 EventSource
compliance (which prescribes Last-Event-ID replay), yet its
`doHttpConnect` never sets the `Last-Event-ID` header: with a stored id
of "1" the built request carries no such header, while the eventsource.go
revision of `doHTTPConnect` does carry it with value "1". -/
theorem lastEventID_header_missing :
    List.lookup "Last-Event-ID" (V2.requestHeaders "1") = none ∧
    List.lookup "Last-Event-ID" (V1.requestHeaders "1") = some "1" := by
  constructor
  · decide
  · decide

/-! ### The lastEventID update rule (claim C8) -/

/-- C8 counterexample: in the eventsource.go revision, delivering a message
with an empty id does NOT leave `lastEventID` unchanged — `consume` runs
`es.lastEventID = ev.LastEventID` unconditionally, so a stored id "5" is
overwritten with the empty string. -/
theorem consume_empty_id_overwrites :
    ({ V1.NewEventSource "u" with lastEventID := "5" } : ESState).lastEventID = "5" ∧
    ((V1.consumeStep { V1.NewEventSource "u" with lastEventID := "5" }
        { LastEventID := "", Name := "", Data := "hello" }).1).lastEventID = "" := by
  constructor
  · rfl
  · rfl

/-- C8 (amended): in the part_001 revision the stored `lastEventID` is
updated only when a message with a non-empty id is delivered — an empty id
leaves it unchanged, a non-empty id `X` sets it to `X`, and the message is
delivered either way; a retry directive never touches it.  In the
eventsource.go revision, by contrast, `lastEventID` is overwritten with
the delivered message's id even when that id is empty. -/
theorem lastEventID_update_rule :
    (∀ (st : ESState) (ev : V2.Event), ev.retry < 0 →
      ((V2.consumeStep st ev).1.lastEventID =
        if ev.ID = "" then st.lastEventID else ev.ID) ∧
      (V2.consumeStep st ev).2 = some ev) ∧
    (∀ (st : ESState) (ev : V2.Event), 0 ≤ ev.retry →
      (V2.consumeStep st ev).1.lastEventID = st.lastEventID) ∧
    (∀ (st : ESState) (ev : V1.MessageEvent),
      (V1.consumeStep st ev).1.lastEventID = ev.LastEventID) := by
  refine ⟨?_, ?_, ?_⟩
  · intro st ev h
    have h2 : ¬ 0 ≤ ev.retry := by omega
    constructor
    · by_cases hid : ev.ID = ""
      · simp [V2.consumeStep, h2, hid]
      · simp [V2.consumeStep, V2.setLastEventID, h2, hid]
    · simp [V2.consumeStep, h2]
  · intro st ev h
    simp [V2.consumeStep, h]
  · intro st ev
    simp [V1.consumeStep]

/-- C8 witness: the amended update rule at concrete inputs — a non-empty
id "7" is recorded, an empty id leaves the (empty) stored id in place, and
the eventsource.go step copies the id field verbatim. -/
theorem lastEventID_update_rule_witness :
    (V2.consumeStep (V2.NewEventSource "u")
        { ID := "7", Name := "n", Data := "d", retry := -1 }).1.lastEventID = "7" ∧
    (V2.consumeStep (V2.NewEventSource "u")
        { ID := "", Name := "n", Data := "d", retry := 2000 }).1.lastEventID = "" ∧
    (V1.consumeStep (V1.NewEventSource "u")
        { LastEventID := "9", Name := "n", Data := "d" }).1.lastEventID = "9" := by
  refine ⟨?_, ?_, ?_⟩
  · have h := (lastEventID_update_rule.1 (V2.NewEventSource "u")
      { ID := "7", Name := "n", Data := "d", retry := -1 } (by decide)).1
    simpa using h
  · have h := lastEventID_update_rule.2.1 (V2.NewEventSource "u")
      { ID := "", Name := "n", Data := "d", retry := 2000 } (by decide)
    simpa [V2.NewEventSource] using h
  · exact lastEventID_update_rule.2.2 (V1.NewEventSource "u")
      { LastEventID := "9", Name := "n", Data := "d" }

/-! ### The Closed state is absorbing (claim C6) -/

/-- The operations that touch the ready state: `setReadyState` with an
arbitrary argument, `acquireClosingRight`, and a whole `Close()` call. -/
inductive LifecycleOp where
  | set (s : ReadyState)
  | acquire
  | closeCall
deriving DecidableEq, Repr

/-- Apply one lifecycle operation to the state. -/
def applyOp (st : ESState) : LifecycleOp → ESState
  | LifecycleOp.set s => setReadyState st s
  | LifecycleOp.acquire => (acquireClosingRight st).2
  | LifecycleOp.closeCall => Close st

/-- Run a sequence of lifecycle operations. -/
def runOps : ESState → List LifecycleOp → ESState
  | st, [] => st
  | st, op :: ops => runOps (applyOp st op) ops

/-- Each single lifecycle operation leaves a `Closed` ready state
`Closed`. -/
theorem applyOp_preserves_closed (st : ESState) (op : LifecycleOp)
    (h : st.readyState = ReadyState.Closed) :
    (applyOp st op).readyState = ReadyState.Closed := by
  cases op <;>
    simp [applyOp, setReadyState, acquireClosingRight, Close, CloseRun, h]

/-- C6: `Closed` is absorbing — starting from a state whose ready state is
`Closed`, no sequence of state-transition attempts (`setReadyState` with
any argument, further `Close` calls, `acquireClosingRight`) ever changes
it, so `ReadyState()` returns `Closed` forever after. -/
theorem closed_absorbing (ops : List LifecycleOp) :
    ∀ st : ESState, st.readyState = ReadyState.Closed →
      (runOps st ops).readyState = ReadyState.Closed := by
  induction ops with
  | nil =>
      intro st h
      simpa [runOps] using h
  | cons op ops ih =>
      intro st h
      exact ih _ (applyOp_preserves_closed st op h)

/-- C6 witness: a closed source stays closed across a concrete burst of
reopen, close and acquire attempts. -/
theorem closed_absorbing_witness :
    (runOps { V2.NewEventSource "u" with readyState := ReadyState.Closed }
      [LifecycleOp.set ReadyState.Open, LifecycleOp.closeCall,
       LifecycleOp.acquire, LifecycleOp.set ReadyState.Connecting]).readyState
      = ReadyState.Closed :=
  closed_absorbing _ _ rfl

/-! ### Idempotent Close (claim C7) -/

/-- The two atomic phases of a `Close()` call: the mutex-guarded
`acquireClosingRight`, and the teardown performed by the winning caller
(the mutex serializes the acquire phase, so any concurrent execution of
several `Close()` calls is an interleaving of these atomic steps). -/
inductive CloseMicro where
  | tryAcquire
  | finish
deriving DecidableEq, Repr

/-- The teardown phase of `Close()`: release the transport body when a
response is held, close the events channel, move to `Closed`. -/
def teardown (st : ESState) : ESState :=
  let st2 :=
    if st.resp.isSome then { st with bodyClosed := st.bodyClosed + 1 }
    else st
  setReadyState { st2 with outClosed := st2.outClosed + 1 } ReadyState.Closed

/-- Number of `acquireClosingRight` calls that succeed along an arbitrary
interleaving of close micro-steps. -/
def countAcquires : ESState → List CloseMicro → Nat
  | _, [] => 0
  | st, CloseMicro.tryAcquire :: tr =>
      (if (acquireClosingRight st).1 then 1 else 0) +
        countAcquires (acquireClosingRight st).2 tr
  | st, CloseMicro.finish :: tr => countAcquires (teardown st) tr

/-- `n` sequential `Close()` calls, returning the final state and how many
of the calls acquired the closing right. -/
def CloseIter : ESState → Nat → ESState × Nat
  | st, 0 => (st, 0)
  | st, n + 1 =>
      ((CloseIter (Close st) n).1,
       (if (CloseRun st).2 then 1 else 0) + (CloseIter (Close st) n).2)

/-- The teardown phase always leaves the ready state `Closed`. -/
theorem teardown_readyState (st : ESState) :
    (teardown st).readyState = ReadyState.Closed := by
  by_cases h : st.readyState = ReadyState.Closed <;>
    simp [teardown, setReadyState, h] <;> split <;> simp [h]

/-- From a `Closing` or `Closed` state no close micro-step ever acquires
the closing right again. -/
theorem countAcquires_zero (tr : List CloseMicro) :
    ∀ st : ESState,
      st.readyState = ReadyState.Closing ∨ st.readyState = ReadyState.Closed →
      countAcquires st tr = 0 := by
  induction tr with
  | nil => intro st _; rfl
  | cons m tr ih =>
      intro st h
      cases m with
      | tryAcquire =>
          have hfail : acquireClosingRight st = (false, st) := by
            rcases h with h | h <;> simp [acquireClosingRight, h]
          simp [countAcquires, hfail, ih st h]
      | finish =>
          simp [countAcquires]
          exact ih _ (Or.inr (teardown_readyState st))

/-- A `Close()` call on a state that is already `Closed` is a no-op that
does not acquire the closing right. -/
theorem CloseRun_closed (st : ESState)
    (h : st.readyState = ReadyState.Closed) : CloseRun st = (st, false) := by
  simp [CloseRun, acquireClosingRight, h]

/-- Sequential `Close()` calls after the state reached `Closed` change
nothing and acquire nothing. -/
theorem CloseIter_closed (n : Nat) :
    ∀ st : ESState, st.readyState = ReadyState.Closed →
      CloseIter st n = (st, 0) := by
  induction n with
  | zero => intro st _; rfl
  | succ n ih =>
      intro st h
      have hc : Close st = st := by simp [Close, CloseRun_closed st h]
      simp [CloseIter, CloseRun_closed st h, hc, ih st h]

/-- The first `Close()` call from a not-yet-closing state acquires the
right and performs the full teardown. -/
theorem CloseRun_fresh (st : ESState)
    (h1 : st.readyState ≠ ReadyState.Closing)
    (h2 : st.readyState ≠ ReadyState.Closed) :
    (CloseRun st).2 = true ∧
    (Close st).readyState = ReadyState.Closed ∧
    (Close st).outClosed = st.outClosed + 1 ∧
    (Close st).bodyClosed =
      st.bodyClosed + (if st.resp.isSome then 1 else 0) := by
  refine ⟨?_, ?_, ?_, ?_⟩ <;>
    simp [Close, CloseRun, acquireClosingRight, setReadyState, h1, h2] <;>
    split <;> simp

/-- C7: exactly-one-teardown for `Close()`.  First, along ANY interleaving
of the atomic micro-steps of any number of (possibly concurrent) `Close()`
calls, at most one acquire of the closing right succeeds (the mutex makes
each micro-step atomic; a successful acquire moves the state to `Closing`,
a teardown moves it to `Closed`, and from either no acquire ever succeeds
again).  Second, for any number `n+1 ≥ 1` of `Close()` calls from a state
that is not yet `Closing`/`Closed`, exactly one call acquires the right,
the events channel is closed exactly once, the transport body is released
exactly once when a response is held and never otherwise, the final state
is `Closed`, and every call after the first is a no-op. -/
theorem close_exactly_once :
    (∀ (tr : List CloseMicro) (st : ESState), countAcquires st tr ≤ 1) ∧
    (∀ (st : ESState) (n : Nat),
      st.readyState ≠ ReadyState.Closing →
      st.readyState ≠ ReadyState.Closed →
      (CloseIter st (n + 1)).2 = 1 ∧
      (CloseIter st (n + 1)).1.readyState = ReadyState.Closed ∧
      (CloseIter st (n + 1)).1.outClosed = st.outClosed + 1 ∧
      (CloseIter st (n + 1)).1.bodyClosed =
        st.bodyClosed + (if st.resp.isSome then 1 else 0) ∧
      (CloseIter st (n + 1)).1 = Close st) := by
  constructor
  · intro tr
    induction tr with
    | nil => intro st; simp [countAcquires]
    | cons m tr ih =>
        intro st
        cases m with
        | tryAcquire =>
            by_cases h : st.readyState = ReadyState.Closed ∨
                st.readyState = ReadyState.Closing
            · have hfail : acquireClosingRight st = (false, st) := by
                rcases h with h | h <;> simp [acquireClosingRight, h]
              simpa [countAcquires, hfail] using ih st
            · push_neg at h
              have hsucc : acquireClosingRight st =
                  (true, { st with readyState := ReadyState.Closing }) := by
                simp [acquireClosingRight, h.1, h.2]
              have hz := countAcquires_zero tr
                { st with readyState := ReadyState.Closing } (Or.inl rfl)
              simp [countAcquires, hsucc, hz]
        | finish =>
            simpa [countAcquires] using ih (teardown st)
  · intro st n h1 h2
    obtain ⟨hacq, hrs, hout, hbody⟩ := CloseRun_fresh st h1 h2
    have hiter := CloseIter_closed n (Close st) hrs
    refine ⟨?_, ?_, ?_, ?_, ?_⟩ <;> simp [CloseIter, hacq, hiter, hrs, hout, hbody]

/-- C7 witness: three sequential `Close()` calls on a freshly opened
source with a held response perform exactly one teardown, and a concrete
interleaving of micro-steps acquires at most once. -/
theorem close_exactly_once_witness :
    countAcquires { V2.NewEventSource "u" with readyState := ReadyState.Open }
      [CloseMicro.tryAcquire, CloseMicro.tryAcquire, CloseMicro.finish,
       CloseMicro.tryAcquire] ≤ 1 ∧
    (CloseIter { V2.NewEventSource "u" with
        readyState := ReadyState.Open,
        resp := some ⟨200, AllowedContentType⟩ } 3).2 = 1 :=
  ⟨close_exactly_once.1 _ _,
   (close_exactly_once.2 { V2.NewEventSource "u" with
        readyState := ReadyState.Open,
        resp := some ⟨200, AllowedContentType⟩ } 2
      (by decide) (by decide)).1⟩

/-! ### Default retry interval and its use in reconnect (claim C9) -/

/-- `Close()` leaves every field except the ready state and the close
counters untouched. -/
theorem Close_fields (st : ESState) :
    (Close st).attempts = st.attempts ∧ (Close st).sleeps = st.sleeps ∧
    (Close st).retry = st.retry ∧ (Close st).resp = st.resp := by
  refine ⟨?_, ?_, ?_, ?_⟩ <;>
    simp [Close, CloseRun, acquireClosingRight, setReadyState] <;>
    split <;> simp <;> split <;> simp

/-- `connectOnce` issues exactly one attempt and leaves the sleeps and the
retry interval untouched. -/
theorem connectOnce_fields (st : ESState) (o : ConnectOutcome) :
    ((connectOnce st o).1).attempts = st.attempts + 1 ∧
    ((connectOnce st o).1).sleeps = st.sleeps ∧
    ((connectOnce st o).1).retry = st.retry := by
  cases o with
  | netErr msg => simp [connectOnce, doHttpConnect]
  | resp r =>
      by_cases h : r.contentType = AllowedContentType <;>
        (simp [connectOnce, doHttpConnect, setReadyState, h];
          try (split <;> simp))

/-- C9: a freshly constructed event source has a retry interval of exactly
1000 ms (`defaultRetry = 1 s`), and whenever the reconnection loop returns,
every sleep it performed lasted the state's current retry interval — the
loop added `k` sleeps of exactly `st.retry` for its `k` attempts, and left
the interval unchanged (only a decoded RetryDirective, outside this loop,
overwrites it). -/
theorem default_retry_interval :
    (∀ url, (V2.NewEventSource url).retry = 1000 * millisecond) ∧
    (∀ (env : List ConnectOutcome) (st : ESState) (err : Option SseError)
        (st1 : ESState) (e1 : Option SseError),
      V2.reconnectLoop st err env = some (st1, e1) →
      ∃ k, st1.attempts = st.attempts + k ∧
        st1.sleeps = st.sleeps ++ List.replicate k st.retry ∧
        st1.retry = st.retry) := by
  constructor
  · intro url
    simp [V2.NewEventSource, defaultRetry, second, millisecond]
  · intro env
    induction env with
    | nil =>
        intro st err st1 e1 h
        rw [V2.reconnectLoop] at h
        split at h
        · simp at h
        · obtain ⟨h2, -⟩ :
              (if err.isSome then Close st else st) = st1 ∧ err = e1 := by
            simpa using h
          refine ⟨0, ?_⟩
          obtain ⟨ha, hs, hr, -⟩ := Close_fields st
          cases herr : err.isSome <;> simp [herr] at h2 <;>
            simp [← h2, ha, hs, hr]
    | cons o rest ih =>
        intro st err st1 e1 h
        rw [V2.reconnectLoop] at h
        split at h
        · obtain ⟨k, hka, hks, hkr⟩ := ih _ _ _ _ h
          obtain ⟨ca, cs, cr⟩ := connectOnce_fields
            { st with sleeps := st.sleeps ++ [st.retry] } o
          refine ⟨k + 1, ?_, ?_, ?_⟩
          · rw [hka, ca]
            dsimp only
            omega
          · rw [hks, cs, cr]
            dsimp only
            simp [List.replicate_succ, List.append_assoc]
          · rw [hkr, cr]
        · obtain ⟨h2, -⟩ :
              (if err.isSome then Close st else st) = st1 ∧ err = e1 := by
            simpa using h
          refine ⟨0, ?_⟩
          obtain ⟨ha, hs, hr, -⟩ := Close_fields st
          cases herr : err.isSome <;> simp [herr] at h2 <;>
            simp [← h2, ha, hs, hr]

/-- C9 witness: the default interval at a concrete source, and the sleeps
accounting of a loop run that exits immediately on a terminal error. -/
theorem default_retry_interval_witness :
    (V2.NewEventSource "u").retry = 1000 * millisecond ∧
    ∃ k, (Close (V2.NewEventSource "u")).attempts =
        (V2.NewEventSource "u").attempts + k ∧
      (Close (V2.NewEventSource "u")).sleeps =
        (V2.NewEventSource "u").sleeps ++
          List.replicate k (V2.NewEventSource "u").retry ∧
      (Close (V2.NewEventSource "u")).retry = (V2.NewEventSource "u").retry :=
  ⟨default_retry_interval.1 "u",
   default_retry_interval.2 [] (V2.NewEventSource "u")
     (some SseError.errContentType) (Close (V2.NewEventSource "u"))
     (some SseError.errContentType) (by decide)⟩

/-! ### Close without a response (claim C10) -/

/-- C10: calling `Close()` on a source that never obtained an HTTP
response (`resp` is nil, as after a failed very first request, with the
state still `Connecting`) is safe: the transport release is skipped
(`bodyClosed` unchanged), the events channel is still closed exactly once,
and the ready state becomes `Closed`. -/
theorem close_without_response (st : ESState)
    (hresp : st.resp = none) (hready : st.readyState = ReadyState.Connecting) :
    (Close st).bodyClosed = st.bodyClosed ∧
    (Close st).outClosed = st.outClosed + 1 ∧
    (Close st).readyState = ReadyState.Closed := by
  refine ⟨?_, ?_, ?_⟩ <;>
    simp [Close, CloseRun, acquireClosingRight, setReadyState, hresp, hready]

/-- C10 witness: closing a freshly constructed source whose first request
errored (no response ever stored). -/
theorem close_without_response_witness :
    (Close (V2.NewEventSource "u")).bodyClosed =
      (V2.NewEventSource "u").bodyClosed ∧
    (Close (V2.NewEventSource "u")).outClosed =
      (V2.NewEventSource "u").outClosed + 1 ∧
    (Close (V2.NewEventSource "u")).readyState = ReadyState.Closed :=
  close_without_response (V2.NewEventSource "u") rfl rfl
